import Mathlib

/-!
Shallow embedding of `src/app/main.py` (InsureAI insurance-cost estimator).

The program loads two serialized artifacts (a model and a scaler), encodes six
form fields into a 9-element feature vector, runs the model, and renders the
resulting scalar as a risk label, a KPI and a gauge chart.  Numeric values are
modelled as rationals; the loaded Python objects are modelled by their
behaviour (a transform / predict function) together with their Python
truthiness, and the filesystem at startup by which files exist and what
deserializing each would yield.
-/

namespace InsureAI

/-- Biological sex form field (`st.radio("Gender", ["Male", "Female"])`). -/
inductive Sex
| Male
| Female
deriving DecidableEq, Repr

/-- Region form field; the four strings offered by the selectbox. -/
inductive Region
| Northeast
| Northwest
| Southeast
| Southwest
deriving DecidableEq, Repr

/-- The six raw form fields captured on submission. -/
structure RawInput where
  age : ℕ
  bmi : ℚ
  sex : Sex
  children : ℕ
  smoker : Bool
  region : Region

/-- A loaded scaler object: its Python truthiness and its `transform`
restricted to one row of four features (sklearn transforms preserve shape). -/
structure PyScaler where
  truthy : Bool
  transform : ℚ × ℚ × ℚ × ℚ → ℚ × ℚ × ℚ × ℚ

/-- A loaded model object: its Python truthiness and its `predict`
restricted to one row, returning one scalar. -/
structure PyModel where
  truthy : Bool
  predict : List ℚ → ℚ

/-- `sex_val = 0 if sex == 'Male' else 1` (main.py line 132). -/
def sex_val (s : Sex) : ℚ := if s = Sex.Male then 0 else 1

/-- `smoker_val = 1 if smoker else 0` (main.py line 133). -/
def smoker_val (b : Bool) : ℚ := if b then 1 else 0

/-- `r_nw = 1 if region == 'Northwest' else 0` (main.py line 136). -/
def r_nw (r : Region) : ℚ := if r = Region.Northwest then 1 else 0

/-- `r_se = 1 if region == 'Southeast' else 0` (main.py line 137). -/
def r_se (r : Region) : ℚ := if r = Region.Southeast then 1 else 0

/-- `r_sw = 1 if region == 'Southwest' else 0` (main.py line 138). -/
def r_sw (r : Region) : ℚ := if r = Region.Southwest then 1 else 0

/-- `cluster = 2 if smoker_val == 1 else 1` (main.py line 142). -/
def cluster (inp : RawInput) : ℚ :=
  if smoker_val inp.smoker = 1 then 2 else 1

/-- `input_raw = np.array([[age, bmi, children, cluster]])` (main.py line 146),
one row of four raw features in this fixed order. -/
def input_raw (inp : RawInput) : ℚ × ℚ × ℚ × ℚ :=
  ((inp.age : ℚ), inp.bmi, (inp.children : ℚ), cluster inp)

/-- `input_scaled = scaler.transform(input_raw)[0]` (main.py line 147). -/
def input_scaled (scaler : PyScaler) (inp : RawInput) : ℚ × ℚ × ℚ × ℚ :=
  scaler.transform (input_raw inp)

/-- `final_vec` assembly (main.py lines 151-154): the dense 9-element vector
`[age_s, sex, bmi_s, children_s, smoker, nw, se, sw, cluster_s]`. -/
def final_vec (scaler : PyScaler) (inp : RawInput) : List ℚ :=
  let s := input_scaled scaler inp
  [s.1, sex_val inp.sex, s.2.1, s.2.2.1, smoker_val inp.smoker,
   r_nw inp.region, r_se inp.region, r_sw inp.region, s.2.2.2]

/-- The three risk labels the presenter can emit. -/
inductive RiskLabel
| highRisk
| lowRisk
| standardRisk
deriving DecidableEq, Repr

/-- Threshold analysis (main.py lines 165-170): `if prediction > 30000` then
High Risk `elif prediction < 10000` then Low Risk `else` Standard Risk. -/
def riskLabel (prediction : ℚ) : RiskLabel :=
  if prediction > 30000 then RiskLabel.highRisk
  else if prediction < 10000 then RiskLabel.lowRisk
  else RiskLabel.standardRisk

/-- One color band of the gauge (`steps` entry in the Plotly spec). -/
structure GaugeStep where
  lo : ℚ
  hi : ℚ
  color : String
deriving DecidableEq, Repr

/-- The gauge chart specification built by main.py lines 177-191. -/
structure Gauge where
  axisLo : ℚ
  axisHi : ℚ
  steps : List GaugeStep
  thresholdValue : ℚ
deriving DecidableEq, Repr

/-- The gauge built for a given prediction: axis range `[2000, 60000]`, three
fixed color bands, threshold line at the prediction value. -/
def gaugeFor (prediction : ℚ) : Gauge :=
  { axisLo := 2000
    axisHi := 60000
    steps := [⟨2000, 15000, "#00b894"⟩, ⟨15000, 35000, "#fdcb6e"⟩,
              ⟨35000, 60000, "#ff7675"⟩]
    thresholdValue := prediction }

/-- Everything rendered in the result column for a submission. -/
structure RenderOutput where
  label : RiskLabel
  kpiValue : ℚ
  gauge : Gauge
deriving DecidableEq, Repr

/-- Python truthiness of the module-level `model` variable: `None` is falsy,
an object has its own truthiness. -/
def modelTruthy (m : Option PyModel) : Bool :=
  match m with
  | none => false
  | some obj => obj.truthy

/-- Python truthiness of the module-level `scaler` variable. -/
def scalerTruthy (s : Option PyScaler) : Bool :=
  match s with
  | none => false
  | some obj => obj.truthy

/-- Outcome of one submission: the prediction used for rendering, whether
`model.predict` actually ran, and the rendered output. -/
structure SubmissionResult where
  prediction : ℚ
  predictorInvoked : Bool
  output : RenderOutput
deriving DecidableEq, Repr

/-- The `if submitted:` body of main.py lines 127-192: `prediction = 0.0`;
`if model and scaler:` run the encode-scale-predict pipeline, `else` keep the
fallback 0.0; then render label, KPI and gauge from the prediction. -/
def runSubmission (m : Option PyModel) (s : Option PyScaler) (inp : RawInput) :
    SubmissionResult :=
  let step : ℚ × Bool :=
    if modelTruthy m && scalerTruthy s then
      match m, s with
      | some model, some scaler => (model.predict (final_vec scaler inp), true)
      | _, _ => ((0 : ℚ), false)
    else ((0 : ℚ), false)
  let prediction := step.1
  { prediction := prediction
    predictorInvoked := step.2
    output :=
      { label := riskLabel prediction
        kpiValue := prediction
        gauge := gaugeFor prediction } }

/-- The filesystem and deserializer behaviour seen at startup: whether each of
the two artifact files exists, and what `joblib.load` would yield on each
(`Except.error` models a raised exception). -/
structure FileSystem where
  modelFileExists : Bool
  scalerFileExists : Bool
  modelLoad : Except Unit PyModel
  scalerLoad : Except Unit PyScaler

/-- The `artifacts` dictionary built by `load_artifacts`: each key is present
or absent. -/
structure Artifacts where
  modelEntry : Option PyModel
  scalerEntry : Option PyScaler

/-- `load_artifacts` (main.py lines 32-44): inside a `try`, load the model if
its file exists, then the scaler if its file exists; on any exception return
`None`; otherwise return the dictionary. -/
def load_artifacts (fs : FileSystem) : Option Artifacts :=
  let step1 : Except Unit (Option PyModel) :=
    if fs.modelFileExists then fs.modelLoad.map some else Except.ok none
  match step1 with
  | Except.error _ => none
  | Except.ok modelEntry =>
    let step2 : Except Unit (Option PyScaler) :=
      if fs.scalerFileExists then fs.scalerLoad.map some else Except.ok none
    match step2 with
    | Except.error _ => none
    | Except.ok scalerEntry => some ⟨modelEntry, scalerEntry⟩

/-- Python truthiness of `assets`: `None` and the empty dict are falsy, a
non-empty dict is truthy. -/
def assetsTruthy (assets : Option Artifacts) : Bool :=
  match assets with
  | none => false
  | some a => a.modelEntry.isSome || a.scalerEntry.isSome

/-- Dictionary subscript `assets['model']`: raises `KeyError` when absent. -/
def getModelKey (a : Artifacts) : Except Unit PyModel :=
  match a.modelEntry with
  | some m => Except.ok m
  | none => Except.error ()

/-- Dictionary subscript `assets['scaler']`: raises `KeyError` when absent. -/
def getScalerKey (a : Artifacts) : Except Unit PyScaler :=
  match a.scalerEntry with
  | some s => Except.ok s
  | none => Except.error ()

/-- Module-level startup (main.py lines 47-49):
`assets = load_artifacts()`, `model = assets['model'] if assets else None`,
`scaler = assets['scaler'] if assets else None`.  An `Except.error` result is
an uncaught exception escaping startup. -/
def startup (fs : FileSystem) : Except Unit (Option PyModel × Option PyScaler) := do
  let assets := load_artifacts fs
  let m ← if assetsTruthy assets then
      match assets with
      | some a => (getModelKey a).map some
      | none => Except.ok none
    else Except.ok none
  let s ← if assetsTruthy assets then
      match assets with
      | some a => (getScalerKey a).map some
      | none => Except.ok none
    else Except.ok none
  return (m, s)

/-- `True` when a modelled `joblib.load` outcome is a raised exception. -/
def loadErrored {α : Type} (e : Except Unit α) : Bool :=
  match e with
  | Except.error _ => true
  | Except.ok _ => false

/-- The selectbox options for the region field, in source order
(main.py line 111): `['Southeast', 'Northwest', 'Southwest', 'Northeast']`. -/
def regionOptions : List Region :=
  [Region.Southeast, Region.Northwest, Region.Southwest, Region.Northeast]

/-- The selectbox default: Streamlit selects index 0 of the options list when
no index is given. -/
def regionDefault : Option Region := regionOptions.head?

/-- A concrete raw input (the form's default values). -/
def demoInput : RawInput := ⟨35, 30, Sex.Male, 0, false, Region.Southeast⟩

/-- A scaler object that loads fine and is truthy. -/
def okScaler : PyScaler := ⟨true, id⟩

/-- A loaded model object whose Python truthiness is `False`. -/
def falsyModel : PyModel := ⟨false, fun _ => 12345⟩

/-- A startup state in which both artifact files exist but deserializing the
model raises. -/
def errFS : FileSystem := ⟨true, true, Except.error (), Except.error ()⟩

lemma startup_of_load_none (fs : FileSystem) (h : load_artifacts fs = none) :
    startup fs = Except.ok (none, none) := by
  simp only [startup, h]
  rfl

/-- C1: for every raw input and every loaded scaler, the encoder produces a
feature vector of exactly 9 elements in the fixed order [scaled_age, sex_bit,
scaled_bmi, scaled_children, smoker_bit, region_nw_bit, region_se_bit,
region_sw_bit, scaled_cluster], where the four scaled components are the
scaler's outputs on the raw quad [age, bmi, children, cluster] presented to
the scaler in exactly that order. -/
theorem C1_feature_vector (scaler : PyScaler) (inp : RawInput) :
    (final_vec scaler inp).length = 9 ∧
    final_vec scaler inp =
      [(scaler.transform (input_raw inp)).1, sex_val inp.sex,
       (scaler.transform (input_raw inp)).2.1,
       (scaler.transform (input_raw inp)).2.2.1, smoker_val inp.smoker,
       r_nw inp.region, r_se inp.region, r_sw inp.region,
       (scaler.transform (input_raw inp)).2.2.2] ∧
    input_raw inp = ((inp.age : ℚ), inp.bmi, (inp.children : ℚ), cluster inp) :=
  ⟨rfl, rfl, rfl⟩

/-- C2: when the model or the scaler is unavailable (None), the predictor is
never invoked, the prediction is the fallback 0.0, rendering still proceeds
(label, KPI and gauge are produced), and the risk-label branch taken for 0.0
is Low Risk, not Standard Risk. -/
theorem C2_fallback (m : Option PyModel) (s : Option PyScaler) (inp : RawInput)
    (h : m = none ∨ s = none) :
    (runSubmission m s inp).predictorInvoked = false ∧
    (runSubmission m s inp).prediction = 0 ∧
    (runSubmission m s inp).output = ⟨RiskLabel.lowRisk, 0, gaugeFor 0⟩ ∧
    (runSubmission m s inp).output.label ≠ RiskLabel.standardRisk := by
  have hc : (modelTruthy m && scalerTruthy s) = false := by
    rcases h with h | h <;> subst h <;> simp [modelTruthy, scalerTruthy]
  have hlabel : riskLabel 0 = RiskLabel.lowRisk := by
    unfold riskLabel
    norm_num
  refine ⟨?_, ?_, ?_, ?_⟩ <;> simp [runSubmission, hc, hlabel]

theorem C2_fallback_witness :
    ((none : Option PyModel) = none ∨ (none : Option PyScaler) = none) ∧
    ((runSubmission none none demoInput).predictorInvoked = false ∧
     (runSubmission none none demoInput).prediction = 0 ∧
     (runSubmission none none demoInput).output =
       ⟨RiskLabel.lowRisk, 0, gaugeFor 0⟩ ∧
     (runSubmission none none demoInput).output.label ≠ RiskLabel.standardRisk) :=
  ⟨Or.inl rfl, C2_fallback none none demoInput (Or.inl rfl)⟩

/-- C3: the presenter assigns exactly one risk label by first-match order:
High Risk iff prediction > 30000, otherwise Low Risk iff prediction < 10000,
otherwise Standard Risk; in particular 30001 is High, 9999 is Low and 20000
is Standard. -/
theorem C3_risk_label (p : ℚ) :
    (riskLabel p = RiskLabel.highRisk ∨ riskLabel p = RiskLabel.lowRisk ∨
      riskLabel p = RiskLabel.standardRisk) ∧
    (riskLabel p = RiskLabel.highRisk ↔ 30000 < p) ∧
    (riskLabel p = RiskLabel.lowRisk ↔ ¬ 30000 < p ∧ p < 10000) ∧
    (riskLabel p = RiskLabel.standardRisk ↔ ¬ 30000 < p ∧ ¬ p < 10000) ∧
    riskLabel 30001 = RiskLabel.highRisk ∧
    riskLabel 9999 = RiskLabel.lowRisk ∧
    riskLabel 20000 = RiskLabel.standardRisk := by
  unfold riskLabel
  refine ⟨?_, ?_, ?_, ?_, by norm_num, by norm_num, by norm_num⟩ <;>
    split_ifs with h1 h2 <;> simp_all

/-- C4: the claim says that when exactly one artifact file is missing and the
other loads, startup raises no error; in fact the module-level line
`model = assets['model'] if assets else None` raises a `KeyError`, because
`assets` is then a non-empty (truthy) dict lacking the other key.  This
theorem evaluates startup at the failing input: model file absent, scaler
file present and deserializing fine. -/
theorem C4_startup_raises :
    startup ⟨false, true, Except.error (), Except.ok okScaler⟩ =
      Except.error () := rfl

/-- C5: sex_bit is 0 iff sex is Male and 1 otherwise; smoker_bit is 1 iff
smoker and 0 otherwise; cluster is 2 exactly when smoker is true and 1
otherwise, regardless of every other field. -/
theorem C5_categorical_encodings (inp : RawInput) :
    (sex_val inp.sex = 0 ↔ inp.sex = Sex.Male) ∧
    (sex_val inp.sex = 1 ↔ inp.sex ≠ Sex.Male) ∧
    (smoker_val inp.smoker = 1 ↔ inp.smoker = true) ∧
    (smoker_val inp.smoker = 0 ↔ inp.smoker = false) ∧
    (cluster inp = 2 ↔ inp.smoker = true) ∧
    (cluster inp = 1 ↔ inp.smoker = false) := by
  obtain ⟨age, bmi, sx, ch, sm, r⟩ := inp
  cases sx <;> cases sm <;> simp [sex_val, smoker_val, cluster]

/-- C6: region_nw = 1 iff region is Northwest, region_se = 1 iff Southeast,
region_sw = 1 iff Southwest; exactly one of the three bits is 1 when the
region is one of those three, and all three bits are 0 for Northeast. -/
theorem C6_region_one_hot (r : Region) :
    (r_nw r = 1 ↔ r = Region.Northwest) ∧
    (r_se r = 1 ↔ r = Region.Southeast) ∧
    (r_sw r = 1 ↔ r = Region.Southwest) ∧
    (r_nw r + r_se r + r_sw r = if r = Region.Northeast then 0 else 1) ∧
    (r_nw Region.Northeast = 0 ∧ r_se Region.Northeast = 0 ∧
     r_sw Region.Northeast = 0) := by
  cases r <;> simp [r_nw, r_se, r_sw]

/-- C7: when deserialization of either artifact file raises, the whole load
is treated as total failure: `load_artifacts` returns None, so both the model
and the scaler end up None (no partial state, even if the other artifact had
already loaded) and startup completes without surfacing an error. -/
theorem C7_total_failure (fs : FileSystem)
    (h : (fs.modelFileExists = true ∧ loadErrored fs.modelLoad = true) ∨
         (fs.scalerFileExists = true ∧ loadErrored fs.scalerLoad = true)) :
    load_artifacts fs = none ∧ startup fs = Except.ok (none, none) := by
  obtain ⟨me, se, ml, sl⟩ := fs
  have hnone : load_artifacts ⟨me, se, ml, sl⟩ = none := by
    cases me <;> cases se <;> cases ml <;> cases sl <;>
      rcases h with ⟨he, hl⟩ | ⟨he, hl⟩ <;>
        simp_all [load_artifacts, loadErrored, Except.map]
  exact ⟨hnone, startup_of_load_none _ hnone⟩

theorem C7_total_failure_witness :
    ((errFS.modelFileExists = true ∧ loadErrored errFS.modelLoad = true) ∨
     (errFS.scalerFileExists = true ∧ loadErrored errFS.scalerLoad = true)) ∧
    (load_artifacts errFS = none ∧ startup errFS = Except.ok (none, none)) :=
  ⟨Or.inl ⟨rfl, rfl⟩, C7_total_failure errFS (Or.inl ⟨rfl, rfl⟩)⟩

/-- C8: for every rendered prediction the gauge has fixed axis domain
[2000, 60000], exactly the three fixed color bands 2000-15000 green,
15000-35000 amber, 35000-60000 red, and a threshold marker at the prediction
value; the bands are the same for every prediction and their boundaries
15000/35000 differ from the risk-label thresholds 10000/30000. -/
theorem C8_gauge (p : ℚ) :
    (gaugeFor p).axisLo = 2000 ∧ (gaugeFor p).axisHi = 60000 ∧
    (gaugeFor p).steps =
      [⟨2000, 15000, "#00b894"⟩, ⟨15000, 35000, "#fdcb6e"⟩,
       ⟨35000, 60000, "#ff7675"⟩] ∧
    (gaugeFor p).steps.length = 3 ∧
    (gaugeFor p).thresholdValue = p ∧
    (∀ q : ℚ, (gaugeFor q).steps = (gaugeFor p).steps) ∧
    (∀ m s inp, (runSubmission m s inp).output.gauge =
      gaugeFor (runSubmission m s inp).prediction) ∧
    ((15000 : ℚ) ≠ 10000 ∧ (35000 : ℚ) ≠ 30000) :=
  ⟨rfl, rfl, rfl, rfl, rfl, fun _ => rfl, fun _ _ _ => rfl, by norm_num⟩

/-- C9 counterexample: the claim says the region field defaults to Northeast;
in fact the default is the head of the options list, which in the source is
Southeast. -/
theorem C9_counterexample :
    regionDefault = some Region.Southeast ∧
    Region.Southeast ≠ Region.Northeast :=
  ⟨rfl, by decide⟩

/-- C9 amended: the region field defaults to the first of the four fixed
region strings, and the source's option order is [Southeast, Northwest,
Southwest, Northeast], so the default region is Southeast. -/
theorem C9_default_region :
    regionOptions =
      [Region.Southeast, Region.Northwest, Region.Southwest, Region.Northeast] ∧
    regionDefault = regionOptions.head? ∧
    regionDefault = some Region.Southeast :=
  ⟨rfl, rfl, rfl⟩

/-- C10: the availability check is the Python truthiness of the two loaded
objects (`model and scaler`), not a non-None check: when both artifacts
loaded but either object is falsy, the submission takes the fallback path,
never invoking the predictor and predicting 0.0. -/
theorem C10_truthiness_check (m : PyModel) (s : PyScaler) (inp : RawInput)
    (h : m.truthy = false ∨ s.truthy = false) :
    (runSubmission (some m) (some s) inp).predictorInvoked = false ∧
    (runSubmission (some m) (some s) inp).prediction = 0 := by
  have hc : (modelTruthy (some m) && scalerTruthy (some s)) = false := by
    rcases h with h | h <;> simp [modelTruthy, scalerTruthy, h]
  constructor <;> simp [runSubmission, hc]

theorem C10_truthiness_check_witness :
    (falsyModel.truthy = false ∨ okScaler.truthy = false) ∧
    ((runSubmission (some falsyModel) (some okScaler) demoInput).predictorInvoked
        = false ∧
     (runSubmission (some falsyModel) (some okScaler) demoInput).prediction = 0) :=
  ⟨Or.inl rfl, C10_truthiness_check falsyModel okScaler demoInput (Or.inl rfl)⟩

end InsureAI
